import Mathlib

/-!
Verification of the pyglmnet tutorial notebook (`notebooks/glmnet_tutorial.ipynb`).

The notebook's code cells are shallowly embedded here.  Scalars are modelled
as rationals; the transcendental numpy/scipy routines (`np.exp`, `np.log`,
`scipy.special.expit`, and the square root inside `np.linalg.norm(_, 2)`)
are abstracted as an oracle structure `NumOps`, so every statement below is
either quantified over the oracles or instantiated at concrete executable
ones.  All structural behaviour (loops, index bookkeeping, the active set,
warm starts, the fit records) is translated directly from the notebook's
python source.
-/

unseal Rat.add Rat.sub Rat.mul Rat.inv

set_option maxRecDepth 8000

namespace Pyglmnet

/-- Oracles for the transcendental routines used by the notebook
(`np.exp`, `np.log`, `scipy.special.expit`, and the square root used by
`np.linalg.norm(v, 2)`).  The embedding is exact rational arithmetic
everywhere else. -/
structure NumOps where
  exp : ℚ → ℚ
  log : ℚ → ℚ
  expit : ℚ → ℚ
  sqrt : ℚ → ℚ

/-- `np.spacing(1)` — the distance from 1.0 to the next float, `2 ^ (-52)`. -/
def npSpacingOne : ℚ := 1 / 2 ^ 52

/-- Notebook cell: `def qu(z): eps = np.spacing(1); return np.log(1+eps+np.exp(z))`. -/
def qu (ops : NumOps) (z : ℚ) : ℚ :=
  ops.log (1 + npSpacingOne + ops.exp z)

/-- Elementwise dot product, `np.dot(row, beta)` for one row. -/
def dot (v w : List ℚ) : ℚ :=
  ((v.zip w).map (fun p => p.1 * p.2)).sum

/-- The linear predictor `z = beta0 + np.dot(x, beta)`, one entry per row of `x`. -/
def linpred (beta0 : ℚ) (beta : List ℚ) (x : List (List ℚ)) : List ℚ :=
  x.map (fun row => beta0 + dot row beta)

/-- Column `j` of the design matrix, `x[:,j]`. -/
def col (x : List (List ℚ)) (j : Nat) : List ℚ :=
  x.map (fun row => row.getD j 0)

/-- Notebook cell: `def lmb(beta0, beta, x)` — the conditional intensity,
`np.log(1+eps+np.exp(beta0 + np.dot(x, beta)))` elementwise. -/
def lmb (ops : NumOps) (beta0 : ℚ) (beta : List ℚ) (x : List (List ℚ)) : List ℚ :=
  (linpred beta0 beta x).map (qu ops)

/-- Notebook cell: `def logL(beta0, beta, x, y)` —
`np.sum(y*np.log(l) - l)` with `l = lmb(beta0, beta, x)`. -/
def logL (ops : NumOps) (beta0 : ℚ) (beta : List ℚ)
    (x : List (List ℚ)) (y : List ℚ) : ℚ :=
  let l := lmb ops beta0 beta x
  ((y.zip l).map (fun p => p.1 * ops.log p.2 - p.2)).sum

/-- Notebook cell: `def penalty(alpha, beta)` —
`0.5*(1-alpha)*np.linalg.norm(beta,2) + alpha*np.linalg.norm(beta,1)`.
`np.linalg.norm(beta, 2)` is the square root of the sum of squares (the
UNSQUARED euclidean norm, exactly as the source writes it), and
`np.linalg.norm(beta, 1)` is the sum of absolute values. -/
def penalty (ops : NumOps) (alpha : ℚ) (beta : List ℚ) : ℚ :=
  1 / 2 * (1 - alpha) * ops.sqrt ((beta.map (fun b => b * b)).sum)
    + alpha * (beta.map (fun b => |b|)).sum

/-- Notebook cell: `def loss(beta0, beta, alpha, reg_lambda, x, y)` —
`J = -logL(...) + reg_lambda*penalty(alpha, beta)`.  The intercept `beta0`
is passed separately and never reaches `penalty`. -/
def loss (ops : NumOps) (beta0 : ℚ) (beta : List ℚ) (alpha rl : ℚ)
    (x : List (List ℚ)) (y : List ℚ) : ℚ :=
  -(logL ops beta0 beta x y) + rl * penalty ops alpha beta

/-- `np.sign`: `-1`, `0` or `1`. -/
def npSign (x : ℚ) : ℚ :=
  if x < 0 then -1 else if 0 < x then 1 else 0

/-- Notebook cell: `def prox(x, l): return np.sign(x) * (np.abs(x) - l) * (np.abs(x) > l)`.
The python boolean multiplies as `0`/`1`. -/
def prox (x l : ℚ) : ℚ :=
  npSign x * (|x| - l) * (if l < |x| then 1 else 0)

/-- Notebook cell: `def grad_loss(beta0, beta, alpha, reg_lambda, x, y)` —
the batch gradient.  Returns `(grad_beta0, grad_beta)`.  The L1 subgradient
term is commented out in the source and hence absent here. -/
def grad_loss (ops : NumOps) (beta0 : ℚ) (beta : List ℚ) (alpha rl : ℚ)
    (x : List (List ℚ)) (y : List ℚ) : ℚ × List ℚ :=
  let z := linpred beta0 beta x
  let q := z.map (qu ops)
  let s := z.map ops.expit
  let ysq := (y.zip (s.zip q)).map (fun p => p.1 * p.2.1 / p.2.2)
  let g0 := s.sum - ysq.sum
  let gj := (List.range (x.headI.length)).map (fun j =>
    ((s.zip (col x j)).map (fun p => p.1 * p.2)).sum
      - ((ysq.zip (col x j)).map (fun p => p.1 * p.2)).sum
      + rl * (1 - alpha) * beta.getD j 0)
  (g0, gj)

/-- Notebook cell: `def hessian_loss(beta0, beta, alpha, reg_lambda, x, y)` —
the diagonal Hessian terms.  Returns `(hess_beta0, hess_beta)`. -/
def hessian_loss (ops : NumOps) (beta0 : ℚ) (beta : List ℚ) (alpha rl : ℚ)
    (x : List (List ℚ)) (y : List ℚ) : ℚ × List ℚ :=
  let z := linpred beta0 beta x
  let q := z.map (qu ops)
  let s := z.map ops.expit
  let gs := s.map (fun si => si * (1 - si))
  let gsq := (gs.zip (s.zip q)).map
    (fun p => p.1 / p.2.2 - p.2.1 / (p.2.2 * p.2.2))
  let h0 := gs.sum - ((y.zip gsq).map (fun p => p.1 * p.2)).sum
  let hj := (List.range (x.headI.length)).map (fun j =>
    ((gs.zip (col x j)).map (fun p => p.1 * p.2 * p.2)).sum
      - (((y.zip gsq).zip (col x j)).map (fun p => p.1.1 * p.1.2 * p.2 * p.2)).sum
      + rl * (1 - alpha))
  (h0, hj)

/-- Notebook cell: `def grad_loss_k(z, beta_k, alpha, rl, xk, y, k)` —
single-coordinate gradient at the current predictor `z`. -/
def grad_loss_k (ops : NumOps) (z : List ℚ) (beta_k alpha rl : ℚ)
    (xk y : List ℚ) (k : Nat) : ℚ :=
  let q := z.map (qu ops)
  let s := z.map ops.expit
  if k = 0 then
    s.sum - ((y.zip (s.zip q)).map (fun p => p.1 * p.2.1 / p.2.2)).sum
  else
    ((s.zip xk).map (fun p => p.1 * p.2)).sum
      - (((y.zip (s.zip q)).zip xk).map
          (fun p => p.1.1 * p.1.2.1 / p.1.2.2 * p.2)).sum
      + rl * (1 - alpha) * beta_k

/-- Notebook cell: `def hess_loss_k(z, alpha, rl, xk, y, k)` —
single-coordinate diagonal Hessian at the current predictor `z`. -/
def hess_loss_k (ops : NumOps) (z : List ℚ) (alpha rl : ℚ)
    (xk y : List ℚ) (k : Nat) : ℚ :=
  let q := z.map (qu ops)
  let s := z.map ops.expit
  let gs := s.map (fun si => si * (1 - si))
  let gsq := (gs.zip (s.zip q)).map
    (fun p => p.1 / p.2.2 - p.2.1 / (p.2.2 * p.2.2))
  if k = 0 then
    gs.sum - ((y.zip gsq).map (fun p => p.1 * p.2)).sum
  else
    ((gs.zip xk).map (fun p => p.1 * p.2 * p.2)).sum
      - (((y.zip gsq).zip xk).map (fun p => p.1.1 * p.1.2 * p.2 * p.2)).sum
      + rl * (1 - alpha)

/-- The per-grid-point mutable state of `fitmodel`'s inner loop: the
`(p+1)`-vectors `beta`, `beta_prev`, `g`, `h` (index 0 is the intercept),
the maintained linear predictor `z`/`z_prev`, the active set `K`, the loss
trace `L`, the loss deltas `DL`, and the cycle counter `c`. -/
structure CDState where
  beta : List ℚ
  beta_prev : List ℚ
  z : List ℚ
  z_prev : List ℚ
  g : List ℚ
  h : List ℚ
  K : List Nat
  L : List ℚ
  DL : List ℚ
  c : Nat

/-- `fitmodel`'s per-grid-point initialization (the lines from
`beta_prev = np.zeros([p+1,1])` through `K = range(p)`):
`beta` starts at zeros, `beta_prev[0] = beta0_hat`, `beta_prev[1:] = beta_hat`,
`z_prev = beta_prev[0] + np.dot(x, beta_prev[1:])`, `z = z_prev`, `g`/`h`
from the batch `grad_loss`/`hessian_loss` at `(beta0_hat, beta_hat)`, and
the active set `K = range(p)`.  Note the source always initializes from the
top-level `beta0_hat`/`beta_hat`, at every grid index. -/
def cdInit (ops : NumOps) (x : List (List ℚ)) (y : List ℚ) (rl alpha : ℚ)
    (beta0_hat : ℚ) (beta_hat : List ℚ) : CDState :=
  let p := x.headI.length
  let z0 := linpred beta0_hat beta_hat x
  let gb := grad_loss ops beta0_hat beta_hat alpha rl x y
  let hb := hessian_loss ops beta0_hat beta_hat alpha rl x y
  { beta := List.replicate (p + 1) 0
    beta_prev := beta0_hat :: beta_hat
    z := z0
    z_prev := z0
    g := gb.1 :: gb.2
    h := hb.1 :: hb.2
    K := List.range p
    L := []
    DL := []
    c := 0 }

/-- One iteration of `fitmodel`'s inner `for k in K` loop (the `print`
statements are side effects and are dropped):
`beta[k] = beta_prev[k] - g[k]/h[k]`; soft threshold for `k > 0`;
`z = z_prev - g[k]/h[k]*x[:,k]`; recompute `g[k]`, `h[k]` at the new `z`;
housekeeping `beta_prev[k] = beta[k]`, `z_prev = z`. -/
def coordStep (ops : NumOps) (x : List (List ℚ)) (y : List ℚ) (rl alpha : ℚ)
    (k : Nat) (s : CDState) : CDState :=
  let bk0 := s.beta_prev.getD k 0 - s.g.getD k 0 / s.h.getD k 0
  let bk := if 0 < k then prox bk0 (rl * alpha) else bk0
  let z := (s.z_prev.zip (col x k)).map
    (fun p => p.1 - s.g.getD k 0 / s.h.getD k 0 * p.2)
  let gk := grad_loss_k ops z bk alpha rl (col x k) y k
  let hk := hess_loss_k ops z alpha rl (col x k) y k
  { s with
    beta := s.beta.set k bk
    beta_prev := s.beta_prev.set k bk
    z := z
    z_prev := z
    g := s.g.set k gk
    h := s.h.set k hk }

/-- `fitmodel`'s active-set update after a full cycle:
`K = list(set(K) - set([i for (i, val) in enumerate(beta[1:]) if val == 0]))`.
An index `i` is removed exactly when `beta[1:][i]`, i.e. `beta[i+1]`, is zero.
(For small `int` elements CPython's `set` iterates in ascending order, so the
`list(set(K) - ...)` is order-equivalent to filtering the ascending `K`.) -/
def updateActiveSet (K : List Nat) (beta : List ℚ) : List Nat :=
  K.filter (fun k => decide (beta.tail.getD k 0 ≠ 0))

/-- One pass of `fitmodel`'s `while(no_convergence)` body: the coordinate
loop over the active set, `L.append(loss(beta[0], beta[1:], ...))`, the
active-set update, and (for `c > 0`) `DL.append(L[c]-L[c-1])` with the
convergence test `np.abs(DL[-1]/L[-1]) < 1e-3` (the threshold is
hard-coded in the source).  Returns the new state and the convergence flag. -/
def cdCycle (ops : NumOps) (x : List (List ℚ)) (y : List ℚ) (rl alpha : ℚ)
    (s : CDState) : CDState × Bool :=
  let s1 := s.K.foldl (fun t k => coordStep ops x y rl alpha k t) s
  let Lc := loss ops s1.beta.headI s1.beta.tail alpha rl x y
  let Lnew := s1.L ++ [Lc]
  let Knew := updateActiveSet s1.K s1.beta
  if 0 < s1.c then
    let dl := Lc - s1.L.getD (s1.c - 1) 0
    ({ s1 with L := Lnew, K := Knew, DL := s1.DL ++ [dl], c := s1.c + 1 },
      decide (|dl / Lc| < 1 / 1000))
  else
    ({ s1 with L := Lnew, K := Knew, c := s1.c + 1 }, false)

/-- `fitmodel`'s `while(no_convergence)` loop.  The source has no iteration
cap; the `fuel` argument is only an artifact that makes the unbounded
`while` loop a total function, returning the current state when exhausted. -/
def cdSolve (fuel : Nat) (ops : NumOps) (x : List (List ℚ)) (y : List ℚ)
    (rl alpha : ℚ) (s : CDState) : CDState :=
  match fuel with
  | 0 => s
  | fuel + 1 =>
    let r := cdCycle ops x y rl alpha s
    if r.2 then r.1 else cdSolve fuel ops x y rl alpha r.1

/-- The whole inner solve `fitmodel` runs for one grid point: per-grid-point
initialization from `(beta0_hat, beta_hat)` followed by the cycle loop. -/
def gridSolve (ops : NumOps) (x : List (List ℚ)) (y : List ℚ) (rl alpha : ℚ)
    (beta0_hat : ℚ) (beta_hat : List ℚ) (fuel : Nat) : CDState :=
  cdSolve fuel ops x y rl alpha (cdInit ops x y rl alpha beta0_hat beta_hat)

/-- A value stored in a fit-record dict: `beta0` is a scalar, `beta` a vector. -/
inductive FitVal where
  | scalar : ℚ → FitVal
  | vec : List ℚ → FitVal
deriving DecidableEq

/-- A fit record is the python dict `{'beta0': ..., 'beta': ...}`,
modelled as an association list so that exactly the keys the source
creates are observable. -/
abbrev FitRecord := List (String × FitVal)

/-- Python dict assignment `r[key] = v` (every key assigned by the source
already exists in the record, so assignment replaces in place). -/
def dictSet (r : FitRecord) (key : String) (v : FitVal) : FitRecord :=
  r.map (fun kv => if kv.1 = key then (key, v) else kv)

/-- Python dict lookup `r[key]` (total: the source only reads keys it has
written; a missing key returns a dummy `0`). -/
def dictGet (r : FitRecord) (key : String) : FitVal :=
  match r.find? (fun kv => kv.1 == key) with
  | some kv => kv.2
  | none => FitVal.scalar 0

/-- One iteration of `fitmodel`'s outer `for l,rl in enumerate(reg_lambda)`
loop: append `{'beta0': 0., 'beta': np.zeros([p,1])}`, "warm initialize" the
dict entries (from the draw at `l = 0`, else copied from `fit[-2]`), run the
inner solve — which the source starts from the top-level `beta0_hat`/`beta_hat`
draw, NOT from the dict entries — and overwrite the dict with the converged
`beta[0]`, `beta[1:]`. -/
def fitStep (ops : NumOps) (x : List (List ℚ)) (y : List ℚ) (alpha : ℚ)
    (beta0_hat : ℚ) (beta_hat : List ℚ) (fuel : Nat)
    (fit : List FitRecord) (lrl : Nat × ℚ) : List FitRecord :=
  let p := x.headI.length
  let l := lrl.1
  let rl := lrl.2
  let r0 : FitRecord :=
    [("beta0", FitVal.scalar 0), ("beta", FitVal.vec (List.replicate p 0))]
  let r1 :=
    if l = 0 then
      dictSet (dictSet r0 "beta0" (FitVal.scalar beta0_hat))
        "beta" (FitVal.vec beta_hat)
    else
      let prev := (fit.getLast?).getD []
      dictSet (dictSet r0 "beta0" (dictGet prev "beta0"))
        "beta" (dictGet prev "beta")
  let sFin := gridSolve ops x y rl alpha beta0_hat beta_hat fuel
  fit ++ [dictSet (dictSet r1 "beta0" (FitVal.scalar sFin.beta.headI))
    "beta" (FitVal.vec sFin.beta.tail)]

/-- Notebook cell: `def fitmodel(x, y, reg_lambda, alpha)`.  The random
draws `beta0_hat = np.random.normal(0,1,1)` and
`beta_hat = np.random.normal(0,1,[p,1])` are modelled as the explicit
arguments `beta0_hat`, `beta_hat`; `fuel` bounds the unbounded `while`
loop (see `cdSolve`). -/
def fitmodel (ops : NumOps) (x : List (List ℚ)) (y : List ℚ)
    (reg_lambda : List ℚ) (alpha : ℚ) (beta0_hat : ℚ) (beta_hat : List ℚ)
    (fuel : Nat) : List FitRecord :=
  reg_lambda.enum.foldl (fitStep ops x y alpha beta0_hat beta_hat fuel) []

/-- A python runtime error. -/
inductive PyError where
  | nameError : String → PyError
deriving DecidableEq

/-- The names bound at notebook top level when `fitmodel_graddesc` runs:
the first cell's imports (`np`, `expit`, `sps`, `plt`) and the function
cells.  The name
`fit_params` is not among them, and it is not a parameter of
`fitmodel_graddesc` either. -/
def notebookGlobalNames : List String :=
  ["np", "expit", "sps", "plt", "qu", "lmb", "logL", "penalty", "loss",
   "grad_loss", "hessian_loss", "prox", "grad_loss_k", "hess_loss_k",
   "fitmodel", "fitmodel_graddesc"]

/-- Notebook cell: `def fitmodel_graddesc(x, y, reg_params, opt_params)`.
The body computes `n = x.shape[0]`, `p = x.shape[1]` and then evaluates
`reg_lambda = fit_params['reg_lambda']` — but `fit_params` is neither a
parameter (the parameter is `reg_params`) nor a notebook global, so python
raises `NameError` there, before any parameter initialization, gradient
step or fit record; the remainder of the body is unreachable. -/
def fitmodel_graddesc (x : List (List ℚ)) (y : List ℚ)
    (reg_params opt_params : FitRecord) : Except PyError (List FitRecord) :=
  let n := x.length
  let p := x.headI.length
  if h : "fit_params" ∈ notebookGlobalNames then absurd h (by decide)
  else Except.error (PyError.nameError "fit_params")

/-- Concrete oracles used to evaluate the solver on concrete inputs:
`expit` constantly `1/2`, `log` constantly `1`, `exp` constantly `0`, and a
`sqrt` that is correct at `25` (the only point concrete statements need). -/
def ops0 : NumOps :=
  { exp := fun _ => 0
    log := fun _ => 1
    expit := fun _ => 1 / 2
    sqrt := fun q => if q = 25 then 5 else 0 }

/-- A concrete one-row, one-column design matrix. -/
def x0 : List (List ℚ) := [[2]]

/-- A concrete response vector for `x0`. -/
def y0 : List ℚ := [3]

/-- A concrete inner-loop state (for `x0`/`y0`, so `p = 1`) whose cached
Hessian entry for the intercept is the given `hk`; used to evaluate the
unguarded Newton division in `coordStep`. -/
def hGuardState (hk : ℚ) : CDState :=
  { beta := [0, 0]
    beta_prev := [0, 0]
    z := [0]
    z_prev := [0]
    g := [1, 0]
    h := [hk, 0]
    K := [0]
    L := []
    DL := []
    c := 0 }

/-- A second concrete design matrix with two columns (`p = 2`), used to
exercise a non-intercept coordinate update. -/
def x1 : List (List ℚ) := [[1, 2]]

/-- A concrete inner-loop state for `x1` (`p = 2`) whose predictor `z` is
consistent with its parameters `beta_prev = [0, 1, 1]`, and whose cached
gradient/Hessian for coordinate 1 will make the soft-threshold zero that
coordinate. -/
def proxDemoState : CDState :=
  { beta := [0, 0, 0]
    beta_prev := [0, 1, 1]
    z := [3]
    z_prev := [3]
    g := [0, 2, 0]
    h := [0, 1, 0]
    K := [0, 1]
    L := []
    DL := []
    c := 0 }


/-! ## Theorems -/

/-- Soft-thresholding in closed form: `prox x t = sign x * max (|x| - t) 0`,
for every threshold (the proof needs no sign assumption on `t`). -/
theorem prox_eq_sign_mul_max (x t : ℚ) :
    prox x t = npSign x * max (|x| - t) 0 := by
  unfold prox
  by_cases h : t < |x|
  · rw [if_pos h, max_eq_left (by linarith), mul_one]
  · rw [if_neg h, mul_zero, max_eq_right (by linarith), mul_zero]

/-- The sign function recovers its argument against the absolute value. -/
theorem npSign_mul_abs (x : ℚ) : npSign x * |x| = x := by
  unfold npSign
  rcases lt_trichotomy x 0 with hx | hx | hx
  · rw [if_pos hx, abs_of_neg hx]; ring
  · subst hx; simp
  · rw [if_neg (not_lt.mpr hx.le), if_pos hx, abs_of_pos hx, one_mul]

/-- Magnitude of the soft-threshold output. -/
theorem abs_prox (x t : ℚ) : |prox x t| = |npSign x| * max (|x| - t) 0 := by
  rw [prox_eq_sign_mul_max x t, abs_mul]
  rw [abs_of_nonneg (le_max_right (|x| - t) 0)]

/-- C5: the proximal operator `prox` computes
`sign(x) * max(|x| - t, 0)`; it is the identity at threshold `0`, it is
exactly zero once `|x| ≤ t`, and its magnitude is non-increasing in the
threshold. -/
theorem C5_prox_soft_threshold (x t u : ℚ) (ht : 0 ≤ t) (hu : t ≤ u) :
    prox x t = npSign x * max (|x| - t) 0 ∧
    prox x 0 = x ∧
    (|x| ≤ t → prox x t = 0) ∧
    |prox x u| ≤ |prox x t| := by
  refine ⟨prox_eq_sign_mul_max x t, ?_, ?_, ?_⟩
  · rw [prox_eq_sign_mul_max, sub_zero, max_eq_left (abs_nonneg x), npSign_mul_abs]
  · intro hxt
    unfold prox
    rw [if_neg (not_lt.mpr hxt), mul_zero]
  · rw [abs_prox, abs_prox]
    exact mul_le_mul_of_nonneg_left (max_le_max (by linarith) le_rfl) (abs_nonneg _)

/-- Witness for C5 at `x = 1`, `t = 2`, `u = 3` (a point where the
zero-once-below-threshold branch is active). -/
theorem C5_prox_soft_threshold_witness :
    prox 1 2 = npSign 1 * max (|(1 : ℚ)| - 2) 0 ∧
    prox 1 0 = 1 ∧
    (|(1 : ℚ)| ≤ 2 → prox 1 2 = 0) ∧
    |prox 1 3| ≤ |prox 1 2| :=
  C5_prox_soft_threshold 1 2 3 (by norm_num) (by norm_num)

/-- C6: the elastic-net penalty is
`1/2 * (1-alpha) * (unsquared L2 norm) + alpha * (L1 norm)` of `beta` alone
(`beta0` is not an argument); the objective applies it to `beta` only; on
`beta = [3, 4]` with `alpha = 0` it evaluates to `5/2` (the UNSQUARED norm
`5`, not its square `25`, is used); and in the coordinate solver the
intercept update (`k = 0`) has no soft-thresholding while every `k > 0`
update is soft-thresholded. -/
theorem C6_penalty_beta_only (ops : NumOps) (alpha rl beta0 : ℚ)
    (beta : List ℚ) (x : List (List ℚ)) (y : List ℚ) (k : Nat) (s : CDState)
    (hs : ops.sqrt 25 = 5) (hk : 0 < k) :
    penalty ops alpha beta
      = 1 / 2 * (1 - alpha) * ops.sqrt ((beta.map (fun b => b * b)).sum)
        + alpha * (beta.map (fun b => |b|)).sum ∧
    loss ops beta0 beta alpha rl x y
      = -(logL ops beta0 beta x y) + rl * penalty ops alpha beta ∧
    penalty ops 0 [3, 4] = 5 / 2 ∧
    (coordStep ops x y rl alpha 0 s).beta
      = s.beta.set 0 (s.beta_prev.getD 0 0 - s.g.getD 0 0 / s.h.getD 0 0) ∧
    (coordStep ops x y rl alpha k s).beta
      = s.beta.set k
          (prox (s.beta_prev.getD k 0 - s.g.getD k 0 / s.h.getD k 0) (rl * alpha)) := by
  refine ⟨rfl, rfl, ?_, rfl, ?_⟩
  · unfold penalty
    have h25 : ((([3, 4] : List ℚ).map (fun b => b * b)).sum) = 25 := by
      simp
      norm_num
    rw [h25, hs]
    simp
    norm_num
  · simp only [coordStep, if_pos hk]

/-- Witness for C6 at the concrete oracles `ops0` and coordinate `k = 1`. -/
theorem C6_penalty_beta_only_witness :
    penalty ops0 0 [3, 4]
      = 1 / 2 * (1 - 0) * ops0.sqrt ((([3, 4] : List ℚ).map (fun b => b * b)).sum)
        + 0 * ((([3, 4] : List ℚ).map (fun b => |b|)).sum) ∧
    loss ops0 0 [3, 4] 0 0 x0 y0
      = -(logL ops0 0 [3, 4] x0 y0) + 0 * penalty ops0 0 [3, 4] ∧
    penalty ops0 0 [3, 4] = 5 / 2 ∧
    (coordStep ops0 x0 y0 0 0 0 (hGuardState 1)).beta
      = (hGuardState 1).beta.set 0
          ((hGuardState 1).beta_prev.getD 0 0
            - (hGuardState 1).g.getD 0 0 / (hGuardState 1).h.getD 0 0) ∧
    (coordStep ops0 x0 y0 0 0 1 (hGuardState 1)).beta
      = (hGuardState 1).beta.set 1
          (prox ((hGuardState 1).beta_prev.getD 1 0
            - (hGuardState 1).g.getD 1 0 / (hGuardState 1).h.getD 1 0) (0 * 0)) :=
  C6_penalty_beta_only ops0 0 0 0 [3, 4] x0 y0 1 (hGuardState 1) (by decide) (by decide)

/-- C7 (amended): the diagonal-Newton update divides by the cached `h_k`
verbatim — no epsilon floor, no skip.  For every positive `hk` below any
putative floor `eps`, the update at the concrete state `hGuardState hk`
takes the step `-(1/hk)`: it is not skipped (the coefficient changes from
`0`) and its magnitude exceeds `1/eps`. -/
theorem C7_no_hessian_guard (eps hk : ℚ) (h1 : 0 < hk) (h2 : hk < eps) :
    (coordStep ops0 x0 y0 0 0 0 (hGuardState hk)).beta.getD 0 0 = -(1 / hk) ∧
    (coordStep ops0 x0 y0 0 0 0 (hGuardState hk)).beta.getD 0 0 ≠ 0 ∧
    1 / eps < |(coordStep ops0 x0 y0 0 0 0 (hGuardState hk)).beta.getD 0 0| := by
  have hv : (coordStep ops0 x0 y0 0 0 0 (hGuardState hk)).beta.getD 0 0 = -(1 / hk) := by
    show (0 : ℚ) - 1 / hk = -(1 / hk)
    ring
  refine ⟨hv, ?_, ?_⟩
  · rw [hv]
    exact neg_ne_zero.mpr (one_div_ne_zero (ne_of_gt h1))
  · rw [hv, abs_neg, abs_of_pos (one_div_pos.mpr h1)]
    exact one_div_lt_one_div_of_lt h1 h2

/-- Witness for C7 at `eps = 1`, `hk = 1/2`. -/
theorem C7_no_hessian_guard_witness :
    (coordStep ops0 x0 y0 0 0 0 (hGuardState (1 / 2))).beta.getD 0 0 = -(1 / (1 / 2)) ∧
    (coordStep ops0 x0 y0 0 0 0 (hGuardState (1 / 2))).beta.getD 0 0 ≠ 0 ∧
    1 / 1 < |(coordStep ops0 x0 y0 0 0 0 (hGuardState (1 / 2))).beta.getD 0 0| :=
  C7_no_hessian_guard 1 (1 / 2) (by norm_num) (by norm_num)

/-- C7 counterexample to the claim as stated: with cached Hessian entry
`h_0 = 2 ^ (-200)` — far below machine-epsilon scale — the Newton update
divides by it raw, producing the step `-(2 ^ 200)`: the update was neither
skipped (the result is nonzero) nor floored at any epsilon of
machine-epsilon scale (its magnitude exceeds `2 ^ 52`). -/
theorem C7_counterexample :
    (coordStep ops0 x0 y0 0 0 0 (hGuardState (1 / 2 ^ 200))).beta.getD 0 0
      = -(2 ^ 200) ∧
    (coordStep ops0 x0 y0 0 0 0 (hGuardState (1 / 2 ^ 200))).beta.getD 0 0 ≠ 0 ∧
    (2 : ℚ) ^ 52
      < |(coordStep ops0 x0 y0 0 0 0 (hGuardState (1 / 2 ^ 200))).beta.getD 0 0| := by
  decide

/-- C1: the path solver never warm-starts.  On the concrete run
`fitmodel ops0 x0 y0 [1, 1/2] 0` with initial draw `(0, [5])`:
grid point 0 converges to `(1, [0])` (stored in the first fit record);
the grid-1 record equals the solve restarted from the ORIGINAL draw
`(0, [5])` (which again yields intercept `1`), whereas the inner solve
warm-started from the stored grid-0 solution `(1, [0])` would yield
intercept `2`.  The inner solver reads `beta0_hat`/`beta_hat`, which are
never reassigned, so every grid index restarts from the initial draw. -/
theorem C1_no_warm_restart :
    (fitmodel ops0 x0 y0 [1, 1 / 2] 0 0 [5] 6).get? 0
      = some [("beta0", FitVal.scalar 1), ("beta", FitVal.vec [0])] ∧
    (fitmodel ops0 x0 y0 [1, 1 / 2] 0 0 [5] 6).get? 1
      = some [("beta0", FitVal.scalar 1), ("beta", FitVal.vec [0])] ∧
    (gridSolve ops0 x0 y0 (1 / 2) 0 0 [5] 6).beta.headI = 1 ∧
    (gridSolve ops0 x0 y0 (1 / 2) 0 1 [0] 6).beta.headI = 2 := by
  decide

/-- C2: the incremental `z` update does not maintain `z = beta0 + X*beta`.
First group: from the consistent state `cdInit ops0 x0 y0 0 0 0 [1]`
(where `z = linpred` holds), one intercept update (`k = 0`) yields
`z = [4]` although the predictor of the updated parameters is `[3]` —
the code adds `-(g0/h0) * x[:,0]` (a design-column multiple) instead of the
constant intercept shift.  Second group: at `proxDemoState` (also
consistent), the `k = 1` update soft-thresholds `beta_1` to exactly `0`,
but `z` moves by the full un-thresholded Newton delta, so `z` again
disagrees with the predictor of the updated parameters. -/
theorem C2_z_update_breaks_invariant :
    (cdInit ops0 x0 y0 0 0 0 [1]).z = linpred 0 [1] x0 ∧
    (coordStep ops0 x0 y0 0 0 0 (cdInit ops0 x0 y0 0 0 0 [1])).z
      ≠ linpred ((coordStep ops0 x0 y0 0 0 0 (cdInit ops0 x0 y0 0 0 0 [1])).beta_prev.headI)
          ((coordStep ops0 x0 y0 0 0 0 (cdInit ops0 x0 y0 0 0 0 [1])).beta_prev.tail) x0 ∧
    (coordStep ops0 x0 y0 0 0 0 (cdInit ops0 x0 y0 0 0 0 [1])).z
      ≠ linpred ((coordStep ops0 x0 y0 0 0 0 (cdInit ops0 x0 y0 0 0 0 [1])).beta.headI)
          ((coordStep ops0 x0 y0 0 0 0 (cdInit ops0 x0 y0 0 0 0 [1])).beta.tail) x0 ∧
    proxDemoState.z = linpred 0 [1, 1] x1 ∧
    (coordStep ops0 x1 y0 1 1 1 proxDemoState).beta.getD 1 0 = 0 ∧
    (coordStep ops0 x1 y0 1 1 1 proxDemoState).z
      ≠ linpred ((coordStep ops0 x1 y0 1 1 1 proxDemoState).beta_prev.headI)
          ((coordStep ops0 x1 y0 1 1 1 proxDemoState).beta_prev.tail) x1 := by
  decide

/-- C3: the active-set pruning is off by one.  After a cycle that left
`beta = [7, 0, 5]` (so the zeroed coordinate is `beta_1`, i.e. active-set
index 1) with active set `[0, 1]`, the update removes index `0` and keeps
index `1` — the claim requires the result `[0]`, the code produces `[1]`. -/
theorem C3_prune_off_by_one :
    updateActiveSet [0, 1] [7, 0, 5] = [1] ∧
    1 ∈ updateActiveSet [0, 1] [7, 0, 5] ∧
    0 ∉ updateActiveSet [0, 1] [7, 0, 5] := by
  decide

/-- C4 counterexample: for `x0` (so `p = 1`) the active set is initialized
to `range(p) = [0]`: it CONTAINS the intercept index `0` and does NOT
contain index `p = 1`, contrary to the claimed initialization `{1..p}`. -/
theorem C4_counterexample :
    (cdInit ops0 x0 y0 1 0 0 [5]).K = [0] ∧
    0 ∈ (cdInit ops0 x0 y0 1 0 0 [5]).K ∧
    1 ∉ (cdInit ops0 x0 y0 1 0 0 [5]).K := by
  decide

/-- C4 (amended): at the start of every grid point the active set is
initialized to `range(p) = {0, ..., p-1}`: for `p > 0` it contains the
intercept index `0`, and it never contains index `p`. -/
theorem C4_active_set_init (ops : NumOps) (x : List (List ℚ)) (y : List ℚ)
    (rl alpha beta0_hat : ℚ) (beta_hat : List ℚ)
    (hp : 0 < x.headI.length) :
    (cdInit ops x y rl alpha beta0_hat beta_hat).K = List.range x.headI.length ∧
    0 ∈ (cdInit ops x y rl alpha beta0_hat beta_hat).K ∧
    x.headI.length ∉ (cdInit ops x y rl alpha beta0_hat beta_hat).K := by
  refine ⟨rfl, ?_, ?_⟩
  · show 0 ∈ List.range x.headI.length
    simpa [List.mem_range] using hp
  · show x.headI.length ∉ List.range x.headI.length
    simp [List.mem_range]

/-- Witness for C4 (amended) at the concrete inputs. -/
theorem C4_active_set_init_witness :
    (cdInit ops0 x0 y0 1 0 0 [5]).K = List.range x0.headI.length ∧
    0 ∈ (cdInit ops0 x0 y0 1 0 0 [5]).K ∧
    x0.headI.length ∉ (cdInit ops0 x0 y0 1 0 0 [5]).K :=
  C4_active_set_init ops0 x0 y0 1 0 0 [5] (by decide)

/-- `dictSet` never changes the key list of a record. -/
theorem dictSet_keys (r : FitRecord) (key : String) (v : FitVal) :
    (dictSet r key v).map Prod.fst = r.map Prod.fst := by
  induction r with
  | nil => rfl
  | cons kv t ih =>
    simp only [dictSet, List.map_cons] at ih ⊢
    by_cases h : kv.1 = key
    · rw [if_pos h, ih, h]
    · rw [if_neg h, ih]

/-- Every record appended by one outer-loop iteration has exactly the keys
`beta0` and `beta`. -/
theorem fitStep_keys (ops : NumOps) (x : List (List ℚ)) (y : List ℚ)
    (alpha beta0_hat : ℚ) (beta_hat : List ℚ) (fuel : Nat)
    (fit : List FitRecord) (lrl : Nat × ℚ) (r : FitRecord)
    (hr : r ∈ fitStep ops x y alpha beta0_hat beta_hat fuel fit lrl) :
    r ∈ fit ∨ r.map Prod.fst = ["beta0", "beta"] := by
  simp only [fitStep, List.mem_append, List.mem_singleton] at hr
  rcases hr with h | h
  · exact Or.inl h
  · right
    subst h
    rw [dictSet_keys, dictSet_keys]
    by_cases hl : lrl.1 = 0
    · rw [if_pos hl, dictSet_keys, dictSet_keys]; rfl
    · rw [if_neg hl]
      rw [dictSet_keys, dictSet_keys]; rfl

/-- Key-list invariant for the whole outer fold. -/
theorem fitmodel_keys_aux (ops : NumOps) (x : List (List ℚ)) (y : List ℚ)
    (alpha beta0_hat : ℚ) (beta_hat : List ℚ) (fuel : Nat) :
    ∀ (l : List (Nat × ℚ)) (acc : List FitRecord),
      (∀ r ∈ acc, r.map Prod.fst = ["beta0", "beta"]) →
      ∀ r ∈ l.foldl (fitStep ops x y alpha beta0_hat beta_hat fuel) acc,
        r.map Prod.fst = ["beta0", "beta"] := by
  intro l
  induction l with
  | nil => intro acc hacc r hr; exact hacc r hr
  | cons a t ih =>
    intro acc hacc r hr
    rw [List.foldl_cons] at hr
    refine ih _ ?_ r hr
    intro r2 hr2
    rcases fitStep_keys ops x y alpha beta0_hat beta_hat fuel acc a r2 hr2 with h | h
    · exact hacc r2 h
    · exact h

/-- C8 (amended): every fit record in the returned regularization path has
exactly the keys `beta0` and `beta` — the converged coefficients only; the
per-cycle loss trajectory is accumulated in the solver-local `L` and never
stored in any record. -/
theorem C8_records_only_coefficients (ops : NumOps) (x : List (List ℚ))
    (y : List ℚ) (reg_lambda : List ℚ) (alpha beta0_hat : ℚ)
    (beta_hat : List ℚ) (fuel : Nat) (r : FitRecord)
    (hr : r ∈ fitmodel ops x y reg_lambda alpha beta0_hat beta_hat fuel) :
    r.map Prod.fst = ["beta0", "beta"] := by
  unfold fitmodel at hr
  exact fitmodel_keys_aux ops x y alpha beta0_hat beta_hat fuel
    reg_lambda.enum [] (by simp) r hr

/-- Witness for C8 (amended): the single record of a concrete run. -/
theorem C8_records_only_coefficients_witness :
    ([("beta0", FitVal.scalar 1), ("beta", FitVal.vec [0])] : FitRecord).map Prod.fst
      = ["beta0", "beta"] :=
  C8_records_only_coefficients ops0 x0 y0 [1] 0 0 [5] 6
    [("beta0", FitVal.scalar 1), ("beta", FitVal.vec [0])] (by decide)

/-- C8 counterexample to the claim as stated: on the concrete run the
solver's loss trajectory is the nonempty `[-2, -2]`, yet the returned fit
record holds exactly the keys `beta0` and `beta` — the trajectory appears
nowhere in the record. -/
theorem C8_counterexample :
    ((fitmodel ops0 x0 y0 [1] 0 0 [5] 6).headI).map Prod.fst = ["beta0", "beta"] ∧
    (gridSolve ops0 x0 y0 1 0 0 [5] 6).L = [-2, -2] ∧
    (gridSolve ops0 x0 y0 1 0 0 [5] 6).L ≠ [] := by
  decide

/-- The outer fold appends exactly one record per grid entry. -/
theorem fitStep_foldl_length (ops : NumOps) (x : List (List ℚ)) (y : List ℚ)
    (alpha beta0_hat : ℚ) (beta_hat : List ℚ) (fuel : Nat) :
    ∀ (l : List (Nat × ℚ)) (acc : List FitRecord),
      (l.foldl (fitStep ops x y alpha beta0_hat beta_hat fuel) acc).length
        = acc.length + l.length := by
  intro l
  induction l with
  | nil => intro acc; rfl
  | cons a t ih =>
    intro acc
    rw [List.foldl_cons, ih]
    have : (fitStep ops x y alpha beta0_hat beta_hat fuel acc a).length
        = acc.length + 1 := by
      unfold fitStep
      rw [List.length_append]
      rfl
    rw [this, List.length_cons]
    omega

/-- C9 (amended): `fitmodel` performs no configuration validation: for
EVERY `alpha` (also outside `[0,1]`), every grid (also empty or
non-descending; the convergence threshold is hard-coded, not configurable),
it runs the optimization and returns one fit record per grid entry. -/
theorem C9_no_validation (ops : NumOps) (x : List (List ℚ)) (y : List ℚ)
    (reg_lambda : List ℚ) (alpha beta0_hat : ℚ) (beta_hat : List ℚ)
    (fuel : Nat) :
    (fitmodel ops x y reg_lambda alpha beta0_hat beta_hat fuel).length
      = reg_lambda.length := by
  unfold fitmodel
  rw [fitStep_foldl_length]
  rw [List.enum_length]
  simp

/-- C9 counterexample to the claim as stated: with the invalid
configuration `alpha = 2 ∉ [0,1]` and the ASCENDING grid `[1, 2]`,
`fitmodel` does not fail: it runs the optimization (the returned intercept
`1` differs from the warm-start value `0`, so parameter updates and
objective evaluations took place) and produces two fit records. -/
theorem C9_counterexample :
    fitmodel ops0 x0 y0 [1, 2] 2 0 [5] 6
      = [[("beta0", FitVal.scalar 1), ("beta", FitVal.vec [0])],
         [("beta0", FitVal.scalar 1), ("beta", FitVal.vec [0])]] ∧
    FitVal.scalar 1 ≠ FitVal.scalar 0 := by
  decide

/-- C10: every invocation of `fitmodel_graddesc` evaluates the undefined
name `fit_params` while reading its regularization parameters and raises
`NameError`, before any parameter initialization, gradient step, or fit
record is produced. -/
theorem C10_graddesc_always_name_error (x : List (List ℚ)) (y : List ℚ)
    (reg_params opt_params : FitRecord) :
    fitmodel_graddesc x y reg_params opt_params
      = Except.error (PyError.nameError "fit_params") := by
  unfold fitmodel_graddesc
  exact dif_neg (by decide)

end Pyglmnet
